import Mathlib

/-!
# CA_lobby — verification of spec claims against the source

Shallow embedding of the parts of the CA_lobby repository that the claims
C1–C10 talk about:

* `src/subagents/flask_nextjs_api_migration.py` (effort estimator, C1)
* `src/subagents/authentication_migration_specialist.py` (auth recommendation, C2)
* `src/webapp/backend/api/search.py` (search routes and mock fallback, C3)
* `src/scripts/web-health-monitor.py` (endpoint probe and alert loop, C4, C5)
* `src/webapp/backend/api/export.py` (role-gated export, C6)
* `src/webapp/backend/api/reports.py` (custom-report SQL screen, C7)
* `src/subagents/react_nextjs_migration_specialist.py` (effort estimator, C8)
* `src/subagents/agent_registry.py` (recommendation/dispatch, C9)
* `src/webapp/backend/api/auth.py` (login state transition, C10)

Python dictionaries are embedded as association lists over a small value
type `PyVal`; Python floats in the estimators are embedded as rationals
(all the arithmetic involved is exact decimal arithmetic, so `ℚ` is a
faithful model and `int()` is truncation toward zero).
-/

namespace CALobby

/-- A Python value as it occurs in the subagent configuration dictionaries:
strings, integers, booleans, lists, `None`, and nested dictionaries. -/
inductive PyVal where
  | str (s : String)
  | int (n : Int)
  | bool (b : Bool)
  | list (xs : List PyVal)
  | dict (d : List (String × PyVal))
  | none

/-- A Python dictionary with string keys, as an association list
(first binding wins, matching insertion without duplicate keys). -/
abbrev PyDict := List (String × PyVal)

/-- `d.get(k, default)` of a Python dict. -/
def PyDict.get (d : PyDict) (k : String) (default : PyVal) : PyVal :=
  match d.find? (fun p => p.1 == k) with
  | some p => p.2
  | Option.none => default

/-- Python `len` on the values it is applied to in the embedded code
(lists and strings; other values never reach a `len` call there). -/
def pyLen : PyVal → Nat
  | .list xs => xs.length
  | .str s => s.length
  | _ => 0

/-- Numeric value of a `PyVal` used in arithmetic (ints only in the
embedded code paths). -/
def pyAsInt : PyVal → Int
  | .int n => n
  | .bool b => if b then 1 else 0
  | _ => 0

/-- Python truthiness of a value. -/
def pyTruthy : PyVal → Bool
  | .str s => !(s == "")
  | .int n => !(n == 0)
  | .bool b => b
  | .list xs => !xs.isEmpty
  | .dict d => !d.isEmpty
  | .none => false

/-- `v != s₀` for a Python value compared with a string literal: a string
compares by contents, any non-string value is unequal to a string. -/
def pyNeStr (v : PyVal) (s₀ : String) : Bool :=
  match v with
  | .str s => !(s == s₀)
  | _ => true

/-- `v == s₀` for a Python value compared with a string literal. -/
def pyEqStr (v : PyVal) (s₀ : String) : Bool :=
  match v with
  | .str s => s == s₀
  | _ => false

/-- Python `int()` applied to a rational: truncation toward zero. -/
def pyTrunc (q : ℚ) : Int :=
  if 0 ≤ q then ⌊q⌋ else -(⌊-q⌋)

/-- Python `s.startswith(pre)`, on the character lists of the strings. -/
def pyStartsWith (s pre : String) : Bool :=
  pre.data.isPrefixOf s.data

/-- Substring containment on character lists (Python's `needle in hay`). -/
def containsSub (needle : List Char) : List Char → Bool
  | [] => needle.isEmpty
  | c :: rest => needle.isPrefixOf (c :: rest) || containsSub needle rest

/-- Python `s.upper()`, as a character list. -/
def upperChars (s : String) : List Char :=
  s.data.map Char.toUpper

/-- Python `s.lower()`. -/
def pyLower (s : String) : String :=
  ⟨s.data.map Char.toLower⟩

/-- Python `needle in hay` on strings. -/
def pyInStr (needle hay : String) : Bool :=
  containsSub needle.data hay.data

end CALobby

/-! ## Flask → Next.js API migration specialist (C1)

From `src/subagents/flask_nextjs_api_migration.py`. -/

namespace CALobby.FlaskMigration

open CALobby

/-- The `analysis` dictionary built by
`FlaskNextJSAPIMigrationSpecialist.analyze_flask_api` (lines 126–139 of
`flask_nextjs_api_migration.py`), key for key. -/
def analyze_flask_api_analysis (flask_config : PyDict) : PyDict :=
  [("flask_version", flask_config.get "flask_version" (.str "unknown")),
   ("app_structure", flask_config.get "structure" (.str "single_file")),
   ("endpoints_count", .int (pyLen (flask_config.get "endpoints" (.list [])))),
   ("http_methods_used", flask_config.get "methods" (.list [.str "GET", .str "POST"])),
   ("middleware_count", .int (pyLen (flask_config.get "middleware" (.list [])))),
   ("database_integration", flask_config.get "database" (.str "none")),
   ("authentication_method", flask_config.get "auth" (.str "none")),
   ("extensions_used", flask_config.get "extensions" (.list [])),
   ("custom_decorators", flask_config.get "decorators" (.list [])),
   ("error_handling", flask_config.get "error_handlers" (.list [])),
   ("cors_configuration", flask_config.get "cors" (.dict [])),
   ("migration_complexity", .str "medium")]

/-- Result record of `_estimate_api_migration_effort`. -/
structure ApiEffortEstimate where
  estimated_hours : Int
  estimated_days : Int
  setup_and_config : ℚ
  endpoint_migration : ℚ
  middleware_conversion : ℚ
  database_adaptation : ℚ
  authentication_migration : ℚ
  extensions_handling : ℚ
  deriving Repr, DecidableEq

/-- The complexity-multiplier lookup
`complexity_multiplier.get(analysis.get("migration_complexity", "medium"), 1.3)`. -/
def flaskComplexityMultiplier (v : PyVal) : ℚ :=
  match v with
  | .str "low" => 1
  | .str "medium" => 13/10
  | .str "high" => 2
  | _ => 13/10

/-- `_estimate_api_migration_effort` (lines 193–232 of
`flask_nextjs_api_migration.py`).  Note that the middleware factor reads
the key `"middleware"` from the analysis dictionary — the dictionary built
by `analyze_flask_api` carries `"middleware_count"`, not `"middleware"`. -/
def estimate_api_migration_effort (analysis : PyDict) : ApiEffortEstimate :=
  let base_effort : ℚ := 16
  let endpoint_factor : ℚ := (pyAsInt (analysis.get "endpoints_count" (.int 0)) : ℚ) * (3/2)
  let middleware_factor : ℚ := (pyLen (analysis.get "middleware" (.list [])) : ℚ) * 3
  let database_factor : ℚ :=
    if pyNeStr (analysis.get "database_integration" (.str "none")) "none" then 12 else 0
  let auth_factor : ℚ :=
    if pyNeStr (analysis.get "authentication_method" (.str "none")) "none" then 8 else 0
  let extensions_factor : ℚ := (pyLen (analysis.get "extensions_used" (.list [])) : ℚ) * 2
  let total_hours : ℚ :=
    (base_effort + endpoint_factor + middleware_factor +
      database_factor + auth_factor + extensions_factor) *
      flaskComplexityMultiplier (analysis.get "migration_complexity" (.str "medium"))
  { estimated_hours := pyTrunc total_hours
    estimated_days := pyTrunc (total_hours / 8)
    setup_and_config := base_effort
    endpoint_migration := endpoint_factor
    middleware_conversion := middleware_factor
    database_adaptation := database_factor
    authentication_migration := auth_factor
    extensions_handling := extensions_factor }

/-- The `estimated_effort` field of `analyze_flask_api flask_config`
(line 148: `self._estimate_api_migration_effort(analysis)`). -/
def analyze_flask_api_effort (flask_config : PyDict) : ApiEffortEstimate :=
  estimate_api_migration_effort (analyze_flask_api_analysis flask_config)

/-- The flask_config of claim C1: 10 endpoints, two middleware entries,
SQLAlchemy database, JWT auth, three extensions, medium complexity. -/
def c1Config : PyDict :=
  [("endpoints", .list [.str "e0", .str "e1", .str "e2", .str "e3", .str "e4",
      .str "e5", .str "e6", .str "e7", .str "e8", .str "e9"]),
   ("middleware", .list [.str "m1", .str "m2"]),
   ("database", .str "sqlalchemy"),
   ("auth", .str "jwt"),
   ("extensions", .list [.str "e1", .str "e2", .str "e3"]),
   ("complexity", .str "medium")]

/-- The analysis dictionary that `analyze_flask_api` builds from `c1Config`
(proved equal inside the C1 theorem); spelled out so that the estimator's
dictionary reads can be discharged by `rfl`. -/
def c1Analysis : PyDict :=
  [("flask_version", .str "unknown"), ("app_structure", .str "single_file"),
   ("endpoints_count", .int 10),
   ("http_methods_used", .list [.str "GET", .str "POST"]),
   ("middleware_count", .int 2), ("database_integration", .str "sqlalchemy"),
   ("authentication_method", .str "jwt"),
   ("extensions_used", .list [.str "e1", .str "e2", .str "e3"]),
   ("custom_decorators", .list []), ("error_handling", .list []),
   ("cors_configuration", .dict []), ("migration_complexity", .str "medium")]

end CALobby.FlaskMigration

/-! ## Authentication migration specialist (C2)

From `src/subagents/authentication_migration_specialist.py`. -/

namespace CALobby.AuthMigration

open CALobby

/-- The `analysis` dictionary built by
`AuthenticationMigrationSpecialist.analyze_current_auth_system`
(lines 138–155 of `authentication_migration_specialist.py`), key for key. -/
def analyze_current_auth_system_analysis (auth_config : PyDict) : PyDict :=
  [("auth_type", auth_config.get "type" (.str "unknown")),
   ("library_used", auth_config.get "library" (.str "unknown")),
   ("user_model_fields", auth_config.get "user_fields" (.list [])),
   ("password_hashing", auth_config.get "password_hash" (.str "unknown")),
   ("session_management", auth_config.get "sessions" (.bool false)),
   ("social_logins", auth_config.get "social_providers" (.list [])),
   ("role_system", auth_config.get "roles" (.list [])),
   ("permissions", auth_config.get "permissions" (.list [])),
   ("protected_routes", auth_config.get "protected_routes" (.list [])),
   ("middleware_count", .int (pyLen (auth_config.get "middleware" (.list [])))),
   ("custom_decorators", auth_config.get "decorators" (.list [])),
   ("token_storage", auth_config.get "token_storage" (.str "unknown")),
   ("password_reset", auth_config.get "password_reset" (.bool false)),
   ("email_verification", auth_config.get "email_verification" (.bool false)),
   ("mfa_enabled", auth_config.get "mfa" (.bool false)),
   ("migration_complexity", .str "medium")]

/-- A target-system recommendation as returned by
`_recommend_target_auth_system`. -/
structure AuthRecommendation where
  recommended_system : String
  reasoning : String
  setup_complexity : String
  ongoing_maintenance : String
  cost : String
  deriving Repr, DecidableEq

/-- `_recommend_target_auth_system` (lines 169–214 of
`authentication_migration_specialist.py`).  Note that it reads the keys
`"social_providers"` and `"roles"` from the analysis dictionary — the
dictionary built by `analyze_current_auth_system` carries those data
under `"social_logins"` and `"role_system"`. -/
def recommend_target_auth_system (analysis : PyDict) : AuthRecommendation :=
  let has_social_logins : Bool := pyLen (analysis.get "social_providers" (.list [])) > 0
  let has_complex_roles : Bool := pyLen (analysis.get "roles" (.list [])) > 3
  let is_enterprise : Bool :=
    pyTruthy (analysis.get "mfa_enabled" (.bool false)) || has_complex_roles
  if is_enterprise then
    { recommended_system := "clerk"
      reasoning := "Enterprise features, built-in MFA, advanced user management"
      setup_complexity := "low", ongoing_maintenance := "very_low", cost := "paid_service" }
  else if has_social_logins || pyEqStr (analysis.get "auth_type" .none) "oauth" then
    { recommended_system := "nextauth"
      reasoning := "Excellent social provider support, flexible configuration"
      setup_complexity := "medium", ongoing_maintenance := "low", cost := "free" }
  else if pyTruthy (analysis.get "password_reset" (.bool false)) ||
      pyTruthy (analysis.get "email_verification" (.bool false)) then
    { recommended_system := "supabase_auth"
      reasoning := "Built-in email workflows, database integration"
      setup_complexity := "low", ongoing_maintenance := "low", cost := "freemium" }
  else
    { recommended_system := "nextauth"
      reasoning := "Most flexible for custom implementations"
      setup_complexity := "medium", ongoing_maintenance := "medium", cost := "free" }

/-- The `target_recommendation` field of `analyze_current_auth_system`
(line 158: `self._recommend_target_auth_system(analysis)`). -/
def analyze_current_auth_system_recommendation (auth_config : PyDict) : AuthRecommendation :=
  recommend_target_auth_system (analyze_current_auth_system_analysis auth_config)

/-- An auth configuration with four roles and nothing else — more than
three roles and no MFA. -/
def c2RolesConfig : PyDict :=
  [("roles", .list [.str "admin", .str "editor", .str "viewer", .str "auditor"])]

end CALobby.AuthMigration

/-! ## Web health monitor (C4, C5)

From `src/scripts/web-health-monitor.py`. -/

namespace CALobby.HealthMonitor

open CALobby

/-- The body of a JSON HTTP response as the probe sees it: either it
parses to a value, or `response.json()` raises with a message. -/
inductive JsonBody where
  | parsed (v : PyVal)
  | invalid (errMsg : String)

/-- Outcome of the `requests.get` call in `check_endpoint`: a timeout, a
refused connection, some other exception, or an HTTP response with a
status code, a content-type header, a body and an elapsed time. -/
inductive ReqOutcome where
  | timeout
  | connectionError
  | otherError (msg : String)
  | response (status : Nat) (contentType : String) (body : JsonBody) (elapsed : ℚ)

/-- The result dictionary built by `WebHealthMonitor.check_endpoint`. -/
structure CheckResult where
  status_code : Option Nat
  response_time : Option ℚ
  success : Bool
  response_data : Option PyVal
  error : Option String

/-- `WebHealthMonitor.check_endpoint` (lines 66–110 of
`web-health-monitor.py`): classify one probe.  A `requests.exceptions.Timeout`
yields error `"TIMEOUT"`, a `ConnectionError` yields `"CONNECTION_ERROR"`,
any other exception its message; on a response the body is parsed as JSON
exactly when the content-type starts with `application/json`, and a failed
parse raises inside the `try`, landing in the generic `except Exception`
branch. -/
def check_endpoint (r : ReqOutcome) : CheckResult :=
  match r with
  | .timeout =>
      { status_code := none, response_time := none, success := false
        response_data := none, error := some "TIMEOUT" }
  | .connectionError =>
      { status_code := none, response_time := none, success := false
        response_data := none, error := some "CONNECTION_ERROR" }
  | .otherError m =>
      { status_code := none, response_time := none, success := false
        response_data := none, error := some m }
  | .response st ct body t =>
      if pyStartsWith ct "application/json" then
        match body with
        | .parsed v =>
            { status_code := some st, response_time := some t, success := st == 200
              response_data := some v, error := none }
        | .invalid m =>
            { status_code := none, response_time := none, success := false
              response_data := none, error := some m }
      else
        { status_code := some st, response_time := some t, success := st == 200
          response_data := none, error := none }

/-- One iteration of the `while True` loop body of
`run_continuous_monitoring` (lines 164–174 of `web-health-monitor.py`),
as a function of the consecutive-failure counter and the cycle's overall
health: the new counter value, and whether an ALERT log line is emitted
this cycle. -/
def monitorStep (alertThreshold : Nat) (consecutiveFailures : Nat) (isHealthy : Bool) :
    Nat × Bool :=
  if isHealthy then (0, false)
  else
    let cf := consecutiveFailures + 1
    (cf, decide (cf ≥ alertThreshold))

/-- The continuous-monitoring loop run over a finite list of per-cycle
health outcomes, recording after each cycle the counter value and whether
an ALERT line was emitted in that cycle. -/
def monitorRun (alertThreshold : Nat) (consecutiveFailures : Nat) :
    List Bool → List (Nat × Bool)
  | [] => []
  | h :: rest =>
      let s := monitorStep alertThreshold consecutiveFailures h
      s :: monitorRun alertThreshold s.1 rest

/-- Written from the spec's words, for comparison with `monitorRun`: the
length of the streak of consecutive failed cycles ending at (and
including) position `k` of the cycle list. -/
def failStreakAt (cycles : List Bool) (k : Nat) : Nat :=
  ((cycles.take (k + 1)).reverse.takeWhile (fun h => !h)).length

end CALobby.HealthMonitor

/-! ## Export API (C6)

From `src/webapp/backend/api/export.py`. -/

namespace CALobby.ExportAPI

open CALobby

/-- Python `s.upper()` as a string. -/
def pyUpper (s : String) : String :=
  ⟨upperChars s⟩

/-- `check_export_permissions` (lines 17–32 of `export.py`): the per-role
row limits (`ADMIN` has `float('inf')`, modelled as no limit; an unknown
role falls back to the `GUEST` limits), and the rejection message. -/
def check_export_permissions (user_role : String) (row_count : Nat) :
    Bool × Option String :=
  let max_rows : Option Nat :=
    match user_role with
    | "GUEST" => some 0
    | "PUBLIC" => some 1000
    | "RESEARCHER" => some 10000
    | "JOURNALIST" => some 50000
    | "ADMIN" => Option.none
    | _ => some 0
  match max_rows with
  | some m =>
      if row_count > m then
        (false, some ("Row limit exceeded. Maximum allowed: " ++ toString m))
      else (true, Option.none)
  | Option.none => (true, Option.none)

/-- `check_format_permission` (lines 34–45 of `export.py`). -/
def check_format_permission (user_role format_type : String) : Bool :=
  let allowed_formats : List String :=
    match user_role with
    | "GUEST" => []
    | "PUBLIC" => ["CSV", "JSON"]
    | "RESEARCHER" => ["CSV", "PDF", "JSON", "EXCEL"]
    | "JOURNALIST" => ["CSV", "PDF", "JSON", "EXCEL"]
    | "ADMIN" => ["CSV", "PDF", "JSON", "EXCEL"]
    | _ => []
  allowed_formats.contains format_type

/-- The export options of the request body (`data.get('options', {})`). -/
structure ExportOptions where
  format : Option String
  filename : Option String
  columns : Option (List String)

/-- The export request body; `Option` at the call site models a missing
or falsy `request.get_json()`. -/
structure ExportBody where
  data : List PyDict
  options : ExportOptions

/-- `data[0].keys() if data else []` of `export_to_csv`. -/
def csvFieldnames (rows : List PyDict) : List String :=
  match rows with
  | [] => []
  | r :: _ => r.map Prod.fst

/-- The file content produced by the four `export_to_*` helpers
(`export_to_pdf` delegates to CSV in this implementation). -/
inductive ExportContent where
  | csv (fieldnames : List String) (rows : List PyDict)
  | json (record_count : Nat) (rows : List PyDict)
  | excel (rows : List PyDict)
  | pdfAsCsv (fieldnames : List String) (rows : List PyDict)

/-- Outcome of the `export_data` route: a JSON error response or a
rendered file sent with a MIME type. -/
inductive ExportOutcome where
  | err (status : Nat) (message : String)
  | file (mime : String) (content : ExportContent)

/-- The column filtering step of `export_data`
(`if columns and export_data:` …). -/
def filterColumns (columns : Option (List String)) (rows : List PyDict) :
    List PyDict :=
  match columns with
  | some cols =>
      if cols.isEmpty || rows.isEmpty then rows
      else rows.map (fun r => cols.map (fun c => (c, r.get c (.str ""))))
  | Option.none => rows

/-- `export_data` (lines 122–202 of `export.py`): role from the JWT
claims (defaulting to `PUBLIC`), missing body → 400, then the format
check (403), then the row-count check (403), then column filtering and
rendering by format, with an unknown format → 400. -/
def export_data (user_role : String) (body : Option ExportBody) : ExportOutcome :=
  match body with
  | Option.none => .err 400 "Export data and options required"
  | some b =>
    let format_type := pyUpper (b.options.format.getD "CSV")
    if !(check_format_permission user_role format_type) then
      .err 403 ("Format " ++ format_type ++ " not allowed for " ++ user_role ++ " users")
    else
      let row_count := b.data.length
      match check_export_permissions user_role row_count with
      | (false, msg) => .err 403 (msg.getD "")
      | (true, _) =>
        let d := filterColumns b.options.columns b.data
        if format_type == "CSV" then .file "text/csv" (.csv (csvFieldnames d) d)
        else if format_type == "JSON" then .file "application/json" (.json d.length d)
        else if format_type == "EXCEL" then
          .file "application/vnd.openxmlformats-officedocument.spreadsheetml.sheet" (.excel d)
        else if format_type == "PDF" then .file "text/csv" (.pdfAsCsv (csvFieldnames d) d)
        else .err 400 ("Unsupported format: " ++ format_type)

end CALobby.ExportAPI

/-! ## Reports API (C7)

From `src/webapp/backend/api/reports.py`. -/

namespace CALobby.ReportsAPI

open CALobby

/-- The fixed disallowed-keyword list of `is_query_safe`
(lines 478–481 of `reports.py`). -/
def dangerous_keywords : List String :=
  ["DROP", "DELETE", "UPDATE", "INSERT", "ALTER", "CREATE",
   "TRUNCATE", "EXEC", "EXECUTE", "SCRIPT", "MERGE"]

/-- `is_query_safe` (lines 476–488 of `reports.py`): uppercase the query
and reject it when any keyword occurs anywhere as a substring. -/
def is_query_safe (query : String) : Bool :=
  let query_upper := upperChars query
  !(dangerous_keywords.any (fun kw => containsSub kw.data query_upper))

/-- The custom-report request body of `generate_custom_report`. -/
structure ReportRequest where
  name : Option String
  query : String

/-- Outcome of the `generate_custom_report` route: an error response, or
the query reaching `execute_report_query`. -/
inductive ReportOutcome where
  | err (status : Nat) (message : String)
  | executed (query : String) (name : String)
  deriving DecidableEq

/-- `generate_custom_report` (lines 333–401 of `reports.py`): role gate
(403), missing body (400), empty query (400), unsafe query (400), and
otherwise execution of the query. -/
def generate_custom_report (user_role : String) (body : Option ReportRequest) :
    ReportOutcome :=
  if !(["RESEARCHER", "JOURNALIST", "ADMIN"].contains user_role) then
    .err 403 "Insufficient permissions for custom reports"
  else
    match body with
    | Option.none => .err 400 "Report configuration required"
    | some b =>
      if b.query == "" then .err 400 "SQL query is required"
      else if !(is_query_safe b.query) then .err 400 "Query contains unsafe operations"
      else .executed b.query (b.name.getD "Untitled Report")

end CALobby.ReportsAPI

/-! ## React → Next.js migration specialist (C8)

From `src/subagents/react_nextjs_migration_specialist.py`. -/

namespace CALobby.ReactMigration

open CALobby

/-- Result record of `_estimate_migration_effort` (the `factors`
sub-dictionary flattened into fields). -/
structure ReactEffortEstimate where
  estimated_hours : Int
  estimated_days : Int
  base_effort : ℚ
  component_complexity : ℚ
  routing_complexity : ℚ
  state_management_complexity : ℚ
  complexity_multiplier : ℚ

/-- The lookup
`complexity_multiplier.get(analysis.get("migration_complexity", "medium"), 1.5)`
with the table `{low: 1.0, medium: 1.5, high: 2.5}`. -/
def reactComplexityMultiplier (v : PyVal) : ℚ :=
  match v with
  | .str "low" => 1
  | .str "medium" => 3/2
  | .str "high" => 5/2
  | _ => 3/2

/-- `_estimate_migration_effort` (lines 193–227 of
`react_nextjs_migration_specialist.py`). -/
def estimate_migration_effort (analysis : PyDict) : ReactEffortEstimate :=
  let base_effort : ℚ := 40
  let component_factor : ℚ :=
    min ((pyAsInt (analysis.get "components_count" (.int 0)) : ℚ) * (1/2)) 20
  let routing_factor : ℚ :=
    if pyNeStr (analysis.get "routing_library" .none) "none" then 8 else 0
  let state_mgmt_factor : ℚ := (pyLen (analysis.get "state_management" (.list [])) : ℚ) * 4
  let mult := reactComplexityMultiplier (analysis.get "migration_complexity" (.str "medium"))
  let total_hours : ℚ :=
    (base_effort + component_factor + routing_factor + state_mgmt_factor) * mult
  { estimated_hours := pyTrunc total_hours
    estimated_days := pyTrunc (total_hours / 8)
    base_effort := base_effort
    component_complexity := component_factor
    routing_complexity := routing_factor
    state_management_complexity := state_mgmt_factor
    complexity_multiplier := mult }

/-- An analysis dictionary carrying the four entries the estimator reads,
as the claim's inputs provide them. -/
def mkReactAnalysis (components_count : Int) (routing_library : PyVal)
    (state_management : List PyVal) (migration_complexity : PyVal) : PyDict :=
  [("components_count", .int components_count),
   ("routing_library", routing_library),
   ("state_management", .list state_management),
   ("migration_complexity", migration_complexity)]

/-- Written from the spec's words, for comparison with the estimator: the
multiplier 1.0/1.5/2.5 for low/medium/high complexity, medium the
default. -/
def specReactMultiplier (complexity : String) : ℚ :=
  match complexity with
  | "low" => 1
  | "high" => 5/2
  | _ => 3/2

/-- Written from the spec's words, for comparison with the estimator:
`hours = (40 + min(component_count × 0.5, 20) + (8 if a routing library
is used else 0) + 4 × count(state-management libraries)) × multiplier`. -/
def specReactHours (component_count : Int) (routing_library : String)
    (state_count : Nat) (complexity : String) : ℚ :=
  (40 + min ((component_count : ℚ) * (1/2)) 20 +
    (if routing_library = "none" then 0 else 8) + 4 * (state_count : ℚ)) *
    specReactMultiplier complexity

end CALobby.ReactMigration

/-! ## Agent registry (C9)

From `src/subagents/agent_registry.py`. -/

namespace CALobby.AgentRegistry

open CALobby

/-- Modelled from the spec: the source file `ui_database_designer.py` of
the `UIDatabaseDesigner` subagent is not present under the given source
tree; the spec (and the registry's own `get_registry_stats` and
`get_migration_workflow_agents`) give its agent type as
`"ui-database-designer"`. -/
def uiDatabaseDesignerAgentType : String := "ui-database-designer"

/-- The keys of `AgentRegistry._agents` after `_initialize_agents`: the
`agent_type` strings of the eleven instantiated agent classes, in
instantiation order.  The Flask migration specialist registers as
`"flask-nextjs-api-migration-specialist"`
(`flask_nextjs_api_migration.py`, line 17). -/
def registeredAgentTypes : List String :=
  ["general-purpose", "statusline-setup", "output-style-setup",
   "website-coding-specialist", "session-archiver", "vercel-deployment-expert",
   uiDatabaseDesignerAgentType, "nextjs-fullstack-expert",
   "react-nextjs-migration-specialist", "flask-nextjs-api-migration-specialist",
   "authentication-migration-specialist"]

/-- The `agent_keywords` table of `recommend_agent_for_task`
(lines 113–123 of `agent_registry.py`), key for key.  Note the fourth key
is `"flask-nextjs-api-migration"`, without the `-specialist` suffix. -/
def agent_keywords : List (String × List String) :=
  [("vercel-deployment-expert",
      ["vercel", "deploy", "deployment", "hosting", "edge", "serverless"]),
   ("nextjs-fullstack-expert",
      ["nextjs", "next.js", "react", "fullstack", "app router"]),
   ("react-nextjs-migration-specialist",
      ["migrate", "migration", "cra", "create-react-app"]),
   ("flask-nextjs-api-migration",
      ["flask", "python", "api migration", "backend"]),
   ("authentication-migration-specialist",
      ["auth", "authentication", "jwt", "login", "session"]),
   ("website-coding-specialist",
      ["ui", "interface", "dashboard", "frontend", "components"]),
   ("ui-database-designer",
      ["database", "data visualization", "tables", "forms"]),
   ("session-archiver",
      ["archive", "documentation", "session", "learning"]),
   ("general-purpose",
      ["research", "analysis", "search", "complex"])]

/-- One entry of the recommendation list (the `agent` field is the
registered agent object; its type string is what identifies it). -/
structure Recommendation where
  agent_type : String
  score : Nat
  match_keywords : List String
  deriving DecidableEq

/-- Stable insertion for the descending sort
`recommendations.sort(key=lambda x: x['score'], reverse=True)`
(ties keep their original order, as Python's stable sort does). -/
def insertByScoreDesc (x : Recommendation) : List Recommendation → List Recommendation
  | [] => [x]
  | y :: ys => if x.score > y.score then x :: y :: ys else y :: insertByScoreDesc x ys

/-- Stable descending-by-score sort. -/
def sortByScoreDesc : List Recommendation → List Recommendation
  | [] => []
  | x :: xs => insertByScoreDesc x (sortByScoreDesc xs)

/-- `recommend_agent_for_task` (lines 99–141 of `agent_registry.py`):
score each keyword-table entry by substring matches in the lowercased
task, keep entries with a positive score whose key is a registered agent
type, and sort by score descending. -/
def recommend_agent_for_task (task_description : String) : List Recommendation :=
  let task_lower := pyLower task_description
  let recs := agent_keywords.filterMap (fun p =>
    let matched := p.2.filter (fun kw => pyInStr kw task_lower)
    if matched.length > 0 then
      if registeredAgentTypes.contains p.1 then
        some ⟨p.1, matched.length, matched⟩
      else Option.none
    else Option.none)
  sortByScoreDesc recs

/-- The agent type that `execute_task_with_best_agent` (lines 143–169)
dispatches to: the top recommendation's agent, or the general-purpose
agent when there are no recommendations (`none` would mean no agent at
all, which cannot happen since `general-purpose` is registered). -/
def executedAgentType (task_description : String) : Option String :=
  match recommend_agent_for_task task_description with
  | [] =>
      if registeredAgentTypes.contains "general-purpose" then some "general-purpose"
      else Option.none
  | r :: _ => some r.agent_type

end CALobby.AgentRegistry

/-! ## Search API (C3)

From `src/webapp/backend/api/search.py`. -/

namespace CALobby.SearchAPI

open CALobby

/-- The pagination object of a search request body. -/
structure Pagination where
  page : Int
  pageSize : Int

/-- The validation applied by all three routes:
`pagination['page'] = max(1, …)`, `pagination['pageSize'] = min(100, max(1, …))`. -/
def validatePagination (p : Pagination) : Pagination :=
  ⟨max 1 p.page, min 100 (max 1 p.pageSize)⟩

/-- A filing-shaped result record, with the fields every route and the
mock generator populate. -/
structure Filing where
  filing_id : String
  filer_name : String
  firm_name : String
  employer_name : String
  report_date : String
  from_date : String
  thru_date : String
  total_amount : ℚ
  county : String
  city : String
  status : String
  amendment_id : Int
  line_item : String
  fees_amount : ℚ
  reimbursement_amount : ℚ
  advance_amount : ℚ
  advance_description : String
  period_total : ℚ
  cumulative_total : ℚ
  latest_amendment_flag : Bool

/-- The pagination envelope of a search response. -/
structure PageInfo where
  currentPage : Int
  totalPages : Int
  totalCount : Int
  pageSize : Int
  hasNextPage : Bool
  hasPreviousPage : Bool

/-- The `data`/`pagination` envelope of a search response. -/
structure Envelope where
  data : List Filing
  pagination : PageInfo

/-- A route's JSON response: HTTP status, `success`, the optional
top-level `mock: true` marker, the envelope, and an error message. -/
structure ApiResponse where
  status : Nat
  success : Bool
  mock : Bool
  body : Option Envelope
  message : Option String

/-- One mock record of `get_mock_search_results` (lines 549–570 of
`search.py`) at row identifier `base_id`. -/
def mockFiling (base_id : Int) : Filing :=
  { filing_id := "10" ++ toString (100000 + base_id)
    filer_name := "Sample Lobbyist " ++ toString base_id
    firm_name := "Sample Firm " ++ toString base_id
    employer_name := "Sample Employer " ++ toString base_id
    report_date := "2024-09-01"
    from_date := "2024-07-01"
    thru_date := "2024-09-30"
    total_amount := 10000 + base_id * 1500
    county := "Sacramento"
    city := "Sacramento"
    status := "Active"
    amendment_id := 0
    line_item := "L" ++ toString base_id
    fees_amount := 8000 + base_id * 1000
    reimbursement_amount := 1000 + base_id * 300
    advance_amount := 1000 + base_id * 200
    advance_description := "Travel and accommodation expenses " ++ toString base_id
    period_total := 10000 + base_id * 1500
    cumulative_total := 30000 + base_id * 4500
    latest_amendment_flag := true }

/-- `get_mock_search_results` (lines 541–593 of `search.py`): one page of
synthetic records with `base_id = (page-1)*pageSize + i + 1` for row
index `i`, a fixed mock total count of 1000, and a top-level
`mock: true` next to `success: true`, status 200.  The `search_type` and
`params` arguments do not influence the generated records. -/
def get_mock_search_results (search_type : String) (params : PyDict)
    (pg : Pagination) : ApiResponse :=
  let _ := search_type
  let _ := params
  let mock_results := (List.range pg.pageSize.toNat).map
    (fun (i : Nat) => mockFiling ((pg.page - 1) * pg.pageSize + (i : Int) + 1))
  let total_count : Int := 1000
  let total_pages : Int := (total_count + pg.pageSize - 1) / pg.pageSize
  { status := 200, success := true, mock := true
    body := some ⟨mock_results,
      ⟨pg.page, total_pages, total_count, pg.pageSize,
        decide (pg.page < total_pages), decide (pg.page > 1)⟩⟩
    message := Option.none }

/-- The outcome of the BigQuery call in a route's inner `try`: a result
set (already row-converted; the DataFrame-to-dict conversion itself is
not at issue in the claims) or a raised exception. -/
inductive QueryResult where
  | rows (rs : List Filing)
  | failure (msg : String)

/-- The shared success-path envelope of the three routes (`total_count =
len(results)` — "simplified for demo", `totalPages = max(1, …)`). -/
def successResponse (results : List Filing) (pg : Pagination) : ApiResponse :=
  let total_count : Int := results.length
  let total_pages : Int := (total_count + pg.pageSize - 1) / pg.pageSize
  { status := 200, success := true, mock := false
    body := some ⟨results,
      ⟨pg.page, max 1 total_pages, total_count, pg.pageSize,
        decide (pg.page < total_pages), decide (pg.page > 1)⟩⟩
    message := Option.none }

/-- `search_entities` (lines 296–379 of `search.py`): with no warehouse
client the route answers 503 `Database connection not available`; a
failed query falls back to the mock results; a successful query yields
the success envelope. -/
def search_entities (clientPresent : Bool) (outcome : QueryResult)
    (params : PyDict) (pg₀ : Pagination) : ApiResponse :=
  let pg := validatePagination pg₀
  if !clientPresent then
    { status := 503, success := false, mock := false, body := Option.none
      message := some "Database connection not available" }
  else
    match outcome with
    | .rows rs => successResponse rs pg
    | .failure _ => get_mock_search_results "entities" params pg

/-- `search_financial` (lines 381–459 of `search.py`): with no warehouse
client the route already falls back to the mock results; likewise on a
failed query. -/
def search_financial (clientPresent : Bool) (outcome : QueryResult)
    (params : PyDict) (pg₀ : Pagination) : ApiResponse :=
  let pg := validatePagination pg₀
  if !clientPresent then get_mock_search_results "financial" params pg
  else
    match outcome with
    | .rows rs => successResponse rs pg
    | .failure _ => get_mock_search_results "financial" params pg

/-- `search_filings` (lines 461–539 of `search.py`): same shape as
`search_financial`. -/
def search_filings (clientPresent : Bool) (outcome : QueryResult)
    (params : PyDict) (pg₀ : Pagination) : ApiResponse :=
  let pg := validatePagination pg₀
  if !clientPresent then get_mock_search_results "filings" params pg
  else
    match outcome with
    | .rows rs => successResponse rs pg
    | .failure _ => get_mock_search_results "filings" params pg

end CALobby.SearchAPI

/-! ## Authentication API (C10)

From `src/webapp/backend/api/auth.py`.  Password hashing
(`generate_password_hash` / `check_password_hash`) is embedded as storing
the password itself and checking by string equality: the pair is
deterministic and the check succeeds exactly for the hashed password, so
this preserves exactly the accept/reject behaviour the claim is about.
The random `uuid4()` user ids are fixed distinct strings. -/

namespace CALobby.AuthAPI

open CALobby

/-- One record of the in-memory `MOCK_USERS` table. -/
structure User where
  id : String
  email : String
  name : String
  password_hash : String
  role : String
  is_active : Bool
  last_login : Option Nat
  deriving DecidableEq

/-- The in-memory user table, keyed by email. -/
abbrev UserTable := List (String × User)

/-- `MOCK_USERS` (lines 18–64 of `auth.py`). -/
def MOCK_USERS : UserTable :=
  [("guest@ca-lobby.gov",
    ⟨"uuid-guest", "guest@ca-lobby.gov", "Guest User", "guest", "GUEST", true, Option.none⟩),
   ("public@ca-lobby.gov",
    ⟨"uuid-public", "public@ca-lobby.gov", "Public User", "public123", "PUBLIC", true,
      Option.none⟩),
   ("researcher@ca-lobby.gov",
    ⟨"uuid-researcher", "researcher@ca-lobby.gov", "Research Analyst", "research123",
      "RESEARCHER", true, Option.none⟩),
   ("journalist@ca-lobby.gov",
    ⟨"uuid-journalist", "journalist@ca-lobby.gov", "Investigative Journalist",
      "journalist123", "JOURNALIST", true, Option.none⟩),
   ("admin@ca-lobby.gov",
    ⟨"uuid-admin", "admin@ca-lobby.gov", "System Administrator", "admin123", "ADMIN",
      true, Option.none⟩)]

/-- `get_user_by_email` (lines 66–68 of `auth.py`). -/
def get_user_by_email (table : UserTable) (email : String) : Option User :=
  (table.find? (fun p => p.1 == email)).map Prod.snd

/-- `check_password_hash` against our identity embedding of
`generate_password_hash`. -/
def check_password_hash (hash password : String) : Bool :=
  hash == password

/-- `update_last_login` (lines 70–73 of `auth.py`): set `last_login` of
the record at `email` (a no-op when the email is not a key). -/
def update_last_login (table : UserTable) (email : String) (now : Nat) : UserTable :=
  table.map (fun p =>
    if p.1 == email then (p.1, { p.2 with last_login := some now }) else p)

/-- A login request body (`role` defaults to `PUBLIC` when absent). -/
structure LoginRequest where
  email : String
  password : String
  role : Option String

/-- The externally visible steps of the login success path, in order:
the `update_last_login` call, then `create_access_token`. -/
inductive LoginEvent where
  | updateLastLogin (email : String)
  | issueToken
  deriving DecidableEq

/-- The JSON response of the login route (status, `success`, message). -/
structure LoginResult where
  status : Nat
  success : Bool
  message : String
  deriving DecidableEq

/-- The normalised email of a request:
`data.get('email', '').lower().strip()`. -/
def reqEmail (body : Option LoginRequest) : String :=
  match body with
  | some b => (pyLower b.email).trim
  | Option.none => ""

/-- `login` (lines 75–172 of `auth.py`) as a state transition on the user
table: the response, the table after the request, and the ordered list of
success-path events.  Rejections in source order: missing body (400),
missing credentials (400), unknown user (401), wrong password (401),
inactive account (403), role mismatch (403); then `update_last_login`,
then the token. -/
def login (table : UserTable) (body : Option LoginRequest) (now : Nat) :
    LoginResult × UserTable × List LoginEvent :=
  match body with
  | Option.none => (⟨400, false, "Request body is required"⟩, table, [])
  | some b =>
    let email := (pyLower b.email).trim
    let password := b.password
    let role := b.role.getD "PUBLIC"
    if email == "" || password == "" then
      (⟨400, false, "Email and password are required"⟩, table, [])
    else
      match get_user_by_email table email with
      | Option.none => (⟨401, false, "Invalid email or password"⟩, table, [])
      | some user =>
        if !(check_password_hash user.password_hash password) then
          (⟨401, false, "Invalid email or password"⟩, table, [])
        else if !user.is_active then
          (⟨403, false, "Account is deactivated"⟩, table, [])
        else if user.role != role then
          (⟨403, false, "Invalid role for this account"⟩, table, [])
        else
          (⟨200, true, "Login successful"⟩, update_last_login table email now,
            [.updateLastLogin email, .issueToken])

/-- Written from the claim's conditions, for comparison with `login` on
the `MOCK_USERS` table: the user at the request's email exists, the
password hash matches, the account is active, and the requested role
(default PUBLIC) equals the stored role. -/
def claimLoginCond (body : Option LoginRequest) : Bool :=
  match body with
  | Option.none => false
  | some b =>
    match get_user_by_email MOCK_USERS ((pyLower b.email).trim) with
    | some u =>
        check_password_hash u.password_hash b.password && u.is_active &&
          (u.role == b.role.getD "PUBLIC")
    | Option.none => false

end CALobby.AuthAPI

section C1C2Theorems

open CALobby CALobby.FlaskMigration CALobby.AuthMigration

/-- C1 (code_bug evidence): invoked through `analyze_flask_api` on the
claim's configuration (10 endpoints, 2 middleware, sqlalchemy, jwt,
3 extensions, medium complexity), the estimator returns 74 hours and
9 days, not the 81 hours and 10 days of the claim: the middleware factor
is 0 because `_estimate_api_migration_effort` reads the key
`"middleware"` while the analysis dictionary stores `"middleware_count"`. -/
theorem C1_flask_effort_at_spec_input :
    (analyze_flask_api_effort c1Config).estimated_hours = 74 ∧
    (analyze_flask_api_effort c1Config).estimated_days = 9 ∧
    (analyze_flask_api_effort c1Config).middleware_conversion = 0 ∧
    ((analyze_flask_api_effort c1Config).estimated_hours = 81 ∨
      (analyze_flask_api_effort c1Config).estimated_days = 10) = False := by
  have h : analyze_flask_api_analysis c1Config = c1Analysis := by rfl
  have g1 : c1Analysis.get "endpoints_count" (.int 0) = .int 10 := by rfl
  have g2 : c1Analysis.get "middleware" (.list []) = .list [] := by rfl
  have g3 : c1Analysis.get "database_integration" (.str "none") = .str "sqlalchemy" := by rfl
  have g4 : c1Analysis.get "authentication_method" (.str "none") = .str "jwt" := by rfl
  have g5 : c1Analysis.get "extensions_used" (.list [])
      = .list [.str "e1", .str "e2", .str "e3"] := by rfl
  have g6 : c1Analysis.get "migration_complexity" (.str "medium") = .str "medium" := by rfl
  rw [analyze_flask_api_effort, h]
  simp [estimate_api_migration_effort, g1, g2, g3, g4, g5, g6, pyLen, pyAsInt,
    pyNeStr, flaskComplexityMultiplier, pyTrunc]
  norm_num [Int.floor_eq_iff]

/-- C2 (code_bug evidence): analyzed through `analyze_current_auth_system`,
a configuration with four roles and no MFA is recommended `"nextauth"`
via the final default branch (reasoning "Most flexible for custom
implementations"), not `"clerk"` as the claim's decision order requires
for a role count greater than 3: `_recommend_target_auth_system` reads
the keys `"roles"` and `"social_providers"` while the analysis dictionary
stores `"role_system"` and `"social_logins"`. -/
theorem C2_role_count_ignored :
    (analyze_current_auth_system_recommendation c2RolesConfig).recommended_system
        = "nextauth" ∧
    (analyze_current_auth_system_recommendation c2RolesConfig).reasoning
        = "Most flexible for custom implementations" ∧
    ((analyze_current_auth_system_recommendation c2RolesConfig).recommended_system
        = "clerk") = False := by
  simp [analyze_current_auth_system_recommendation, recommend_target_auth_system,
    analyze_current_auth_system_analysis, c2RolesConfig, PyDict.get, List.find?,
    pyLen, pyTruthy, pyEqStr]

end C1C2Theorems

section HealthMonitorTheorems

open CALobby CALobby.HealthMonitor

theorem monitorRun_length (t cf : Nat) (l : List Bool) :
    (monitorRun t cf l).length = l.length := by
  induction l generalizing cf with
  | nil => rfl
  | cons h rest ih => simp [monitorRun, ih]

theorem monitorRun_replicate_false (t cf N : Nat) :
    monitorRun t cf (List.replicate N false) =
      (List.range N).map (fun k => (cf + k + 1, decide (cf + k + 1 ≥ t))) := by
  induction N generalizing cf with
  | zero => rfl
  | succ n ih =>
      rw [List.replicate_succ, List.range_succ_eq_map]
      simp only [monitorRun, monitorStep, Bool.false_eq_true, if_false, List.map_cons,
        List.map_map]
      rw [ih (cf + 1)]
      refine congrArg₂ _ (by simp) (congrArg₂ _ (funext fun k => ?_) rfl)
      simp [Function.comp]
      omega

/-- C4 (counterexample): a response with HTTP status 200 and content-type
`application/json` whose body does not parse makes `response.json()`
raise inside the `try`, so `check_endpoint` reports a failure with the
exception's message, contradicting the claim that every 200 response
yields `success = true` with no error. -/
theorem C4_json_parse_failure_counterexample :
    (check_endpoint (.response 200 "application/json"
        (.invalid "Expecting value: line 1 column 1 (char 0)") 1)).success = false ∧
    (check_endpoint (.response 200 "application/json"
        (.invalid "Expecting value: line 1 column 1 (char 0)") 1)).error
      = some "Expecting value: line 1 column 1 (char 0)" := by
  constructor <;> rfl

/-- C4 (amended): a timeout yields error exactly `TIMEOUT`; a refused
connection exactly `CONNECTION_ERROR`; any other exception its message;
a response whose body parses (or whose content-type does not begin with
`application/json`, in which case the body is not parsed at all) is
successful exactly when the status is 200, with no error, and with the
parsed body attached exactly when the content-type begins with
`application/json`; a response with a JSON content-type whose body fails
to parse is reported as a failure carrying the parse error's message. -/
theorem C4_probe_classification :
    (check_endpoint .timeout).error = some "TIMEOUT" ∧
    (check_endpoint .connectionError).error = some "CONNECTION_ERROR" ∧
    (∀ m : String, (check_endpoint (.otherError m)).error = some m) ∧
    (∀ (st : Nat) (ct : String) (v : PyVal) (t : ℚ),
      check_endpoint (.response st ct (.parsed v) t) =
        { status_code := some st, response_time := some t, success := st == 200,
          response_data := if pyStartsWith ct "application/json" then some v else none,
          error := none }) ∧
    (∀ (st : Nat) (ct m : String) (t : ℚ),
      check_endpoint (.response st ct (.invalid m) t) =
        if pyStartsWith ct "application/json" then
          { status_code := none, response_time := none, success := false,
            response_data := none, error := some m }
        else
          { status_code := some st, response_time := some t, success := st == 200,
            response_data := none, error := none }) := by
  refine ⟨rfl, rfl, fun m => rfl, fun st ct v t => ?_, fun st ct m t => ?_⟩
  · by_cases hct : pyStartsWith ct "application/json" = true
    · simp [check_endpoint, hct]
    · simp only [Bool.not_eq_true] at hct
      simp [check_endpoint, hct]
  · by_cases hct : pyStartsWith ct "application/json" = true
    · simp [check_endpoint, hct]
    · simp only [Bool.not_eq_true] at hct
      simp [check_endpoint, hct]

/-- C5: a fully-healthy cycle resets the consecutive-failure counter to
zero (and emits no alert), after which the loop continues exactly as from
a fresh start; and in a run of `N` consecutive fully-failed cycles from a
fresh counter, the single per-cycle alert flag is set at exactly the
cycles whose 1-based index reaches the alert threshold — cycles
`t, t+1, …, N`, so for `N ≥ t` exactly one ALERT line per cycle from the
threshold crossing onward. -/
theorem C5_alert_threshold_and_reset :
    (∀ (t cf : Nat) (rest : List Bool),
      monitorRun t cf (true :: rest) = (0, false) :: monitorRun t 0 rest) ∧
    (∀ (t N k : Nat) (hk : k < N),
      (monitorRun t 0 (List.replicate N false)).get
          ⟨k, by rw [monitorRun_length, List.length_replicate]; exact hk⟩
        = (k + 1, decide (k + 1 ≥ t))) := by
  constructor
  · intro t cf rest
    simp [monitorRun, monitorStep]
  · intro t N k hk
    simp [monitorRun_replicate_false, List.get_eq_getElem, List.getElem_map,
      List.getElem_range]

/-- Witness for C5 at the default threshold 3: in four consecutive failed
cycles the third and fourth cycles alert, the first and second do not,
and a healthy cycle resets the counter. -/
theorem C5_alert_threshold_and_reset_witness :
    monitorRun 3 7 [true, false] = [(0, false), (1, false)] ∧
    (monitorRun 3 0 (List.replicate 4 false)).get
        ⟨2, by rw [monitorRun_length, List.length_replicate]; omega⟩ = (3, true) ∧
    (monitorRun 3 0 (List.replicate 4 false)).get
        ⟨3, by rw [monitorRun_length, List.length_replicate]; omega⟩ = (4, true) ∧
    (monitorRun 3 0 (List.replicate 4 false)).get
        ⟨1, by rw [monitorRun_length, List.length_replicate]; omega⟩ = (2, false) := by
  refine ⟨?_, ?_, ?_, ?_⟩
  · rw [C5_alert_threshold_and_reset.1 3 7 [false]]
    rfl
  · rw [C5_alert_threshold_and_reset.2 3 4 2 (by omega)]; rfl
  · rw [C5_alert_threshold_and_reset.2 3 4 3 (by omega)]; rfl
  · rw [C5_alert_threshold_and_reset.2 3 4 1 (by omega)]; rfl

end HealthMonitorTheorems

section ExportTheorems

open CALobby CALobby.ExportAPI

/-- C6: for a PUBLIC-role export request, 1,001 data rows are rejected
with 403 whatever the requested format; the same request with exactly
1,000 rows and format CSV passes both checks and is rendered as a CSV
file; and format EXCEL is rejected with 403 with the format-permission
message whatever the row count — the format check runs before the
row-count check. -/
theorem C6_public_export_limits :
    (∀ (fmt : Option String) (recs : List CALobby.PyDict), recs.length = 1001 →
      ∃ m, export_data "PUBLIC" (some ⟨recs, ⟨fmt, none, none⟩⟩) = .err 403 m) ∧
    (∀ recs : List CALobby.PyDict, recs.length = 1000 →
      export_data "PUBLIC" (some ⟨recs, ⟨some "CSV", none, none⟩⟩)
        = .file "text/csv" (.csv (csvFieldnames recs) recs)) ∧
    (∀ recs : List CALobby.PyDict,
      export_data "PUBLIC" (some ⟨recs, ⟨some "EXCEL", none, none⟩⟩)
        = .err 403 "Format EXCEL not allowed for PUBLIC users") := by
  refine ⟨fun fmt recs hlen => ?_, fun recs hlen => ?_, fun recs => ?_⟩
  · by_cases hfmt : check_format_permission "PUBLIC" (pyUpper (fmt.getD "CSV")) = true
    · refine ⟨"Row limit exceeded. Maximum allowed: " ++ toString 1000, ?_⟩
      simp [export_data, hfmt, check_export_permissions, hlen]
    · simp only [Bool.not_eq_true] at hfmt
      refine ⟨"Format " ++ pyUpper (fmt.getD "CSV") ++ " not allowed for "
          ++ "PUBLIC" ++ " users", ?_⟩
      simp [export_data, hfmt]
  · have hup : pyUpper "CSV" = "CSV" := by decide
    have hfmt : check_format_permission "PUBLIC" "CSV" = true := by decide
    simp [export_data, Option.getD, hup, hfmt, check_export_permissions, hlen,
      filterColumns]
  · have hup : pyUpper "EXCEL" = "EXCEL" := by decide
    have hfmt : check_format_permission "PUBLIC" "EXCEL" = false := by decide
    simp [export_data, Option.getD, hup, hfmt]

/-- Witness for C6 at concrete inputs: 1,001 empty records in format JSON
are rejected, 1,000 empty records in format CSV are rendered, and one
empty record in format EXCEL is rejected. -/
theorem C6_public_export_limits_witness :
    (∃ m, export_data "PUBLIC" (some ⟨List.replicate 1001 [], ⟨some "JSON", none, none⟩⟩)
        = .err 403 m) ∧
    export_data "PUBLIC" (some ⟨List.replicate 1000 [], ⟨some "CSV", none, none⟩⟩)
      = .file "text/csv" (.csv [] (List.replicate 1000 [])) ∧
    export_data "PUBLIC" (some ⟨[[]], ⟨some "EXCEL", none, none⟩⟩)
      = .err 403 "Format EXCEL not allowed for PUBLIC users" := by
  refine ⟨C6_public_export_limits.1 (some "JSON") _ (by rw [List.length_replicate]), ?_,
    C6_public_export_limits.2.2 [[]]⟩
  have h := C6_public_export_limits.2.1 (List.replicate 1000 [])
    (by rw [List.length_replicate])
  rw [h]
  rfl

end ExportTheorems

section ReportsTheorems

open CALobby CALobby.ReportsAPI

theorem containsSub_spec (n h : List Char) :
    containsSub n h = true ↔ n <:+: h := by
  induction h with
  | nil =>
      simp [containsSub, List.isEmpty_iff, List.infix_nil]
  | cons c t ih =>
      simp [containsSub, List.isPrefixOf_iff_prefix, ih, List.infix_cons_iff]

theorem upperChars_append (a b : String) :
    upperChars (a ++ b) = upperChars a ++ upperChars b := by
  simp [upperChars, String.data_append]

/-- C7: for a permitted role and a present, non-empty query, the custom
report request is rejected with 400 before execution exactly when the
query is unsafe (some fixed keyword occurs case-insensitively as a
substring), and a safe query reaches execution; any query with the
substring `DROP TABLE` anywhere is unsafe, and a concrete SELECT-only
query is executed. -/
theorem C7_custom_report_sql_screen :
    (∀ (role : String) (name : Option String) (q : String),
      (["RESEARCHER", "JOURNALIST", "ADMIN"].contains role) = true → q ≠ "" →
      ((generate_custom_report role (some ⟨name, q⟩)
          = .err 400 "Query contains unsafe operations" ↔ is_query_safe q = false) ∧
       (is_query_safe q = true →
        generate_custom_report role (some ⟨name, q⟩)
          = .executed q (name.getD "Untitled Report")))) ∧
    (∀ pre post : String, is_query_safe (pre ++ "DROP TABLE" ++ post) = false) ∧
    (generate_custom_report "RESEARCHER"
        (some ⟨none, "SELECT filer_naml, firm_name FROM filings WHERE total > 100"⟩)
      = .executed "SELECT filer_naml, firm_name FROM filings WHERE total > 100"
          "Untitled Report") := by
  refine ⟨fun role name q hrole hq => ?_, fun pre post => ?_, by decide⟩
  · have hq' : (q == "") = false := by
      simpa [beq_iff_eq] using hq
    have hrole' : role = "RESEARCHER" ∨ role = "JOURNALIST" ∨ role = "ADMIN" := by
      simpa using hrole
    refine ⟨?_, fun hsafe => ?_⟩
    · cases hsafe : is_query_safe q with
      | false =>
          rcases hrole' with rfl | rfl | rfl <;>
            simp [generate_custom_report, hq', hsafe]
      | true =>
          rcases hrole' with rfl | rfl | rfl <;>
            simp [generate_custom_report, hq', hsafe]
    · rcases hrole' with rfl | rfl | rfl <;>
        simp [generate_custom_report, hq', hsafe]
  · have hmid : upperChars "DROP TABLE" = "DROP TABLE".data := by decide
    have hsplit : ("DROP".data : List Char) ++ " TABLE".data = "DROP TABLE".data := by decide
    have hinf : ("DROP".data : List Char) <:+: upperChars (pre ++ "DROP TABLE" ++ post) := by
      rw [upperChars_append, upperChars_append, hmid]
      refine ⟨upperChars pre, " TABLE".data ++ upperChars post, ?_⟩
      rw [← hsplit]
      simp [List.append_assoc]
    have hc : containsSub "DROP".data (upperChars (pre ++ "DROP TABLE" ++ post)) = true :=
      (containsSub_spec _ _).mpr hinf
    simp only [is_query_safe, Bool.not_eq_false']
    exact List.any_eq_true.mpr ⟨"DROP", by decide, hc⟩

/-- Witness for C7 at concrete inputs: a researcher's `DROP TABLE` query
is rejected with 400 before execution, and the same query is unsafe via
the general `DROP TABLE` conjunct. -/
theorem C7_custom_report_sql_screen_witness :
    generate_custom_report "RESEARCHER" (some ⟨none, "DROP TABLE users"⟩)
      = .err 400 "Query contains unsafe operations" ∧
    is_query_safe ("" ++ "DROP TABLE" ++ " users") = false := by
  constructor
  · exact ((C7_custom_report_sql_screen.1 "RESEARCHER" none "DROP TABLE users"
      (by decide) (by decide)).1).mpr (by decide)
  · exact C7_custom_report_sql_screen.2.1 "" " users"

end ReportsTheorems

section ReactTheorems

open CALobby CALobby.ReactMigration

/-- C8: with 20 components, react-router-dom, one state-management
library and medium complexity the estimator returns 93 hours and 11 days;
and in general, on an analysis with those four entries and a recognised
complexity level, the estimated hours are the truncation of
`(40 + min(components × 0.5, 20) + (8 if a routing library is used else 0)
+ 4 × state-management count) × multiplier` with multiplier 1.0/1.5/2.5
for low/medium/high, and the estimated days the truncation of hours ÷ 8. -/
theorem C8_react_effort_estimator :
    ((estimate_migration_effort (mkReactAnalysis 20 (.str "react-router-dom")
        [.str "redux"] (.str "medium"))).estimated_hours = 93 ∧
     (estimate_migration_effort (mkReactAnalysis 20 (.str "react-router-dom")
        [.str "redux"] (.str "medium"))).estimated_days = 11) ∧
    (∀ (cc : Int) (rl : String) (sm : List PyVal) (cx : String),
      cx = "low" ∨ cx = "medium" ∨ cx = "high" →
      (estimate_migration_effort (mkReactAnalysis cc (.str rl) sm (.str cx))).estimated_hours
          = pyTrunc (specReactHours cc rl sm.length cx) ∧
      (estimate_migration_effort (mkReactAnalysis cc (.str rl) sm (.str cx))).estimated_days
          = pyTrunc (specReactHours cc rl sm.length cx / 8)) := by
  constructor
  · have g1 : (mkReactAnalysis 20 (.str "react-router-dom") [.str "redux"]
        (.str "medium")).get "components_count" (.int 0) = .int 20 := by rfl
    have g2 : (mkReactAnalysis 20 (.str "react-router-dom") [.str "redux"]
        (.str "medium")).get "routing_library" .none = .str "react-router-dom" := by rfl
    have g3 : (mkReactAnalysis 20 (.str "react-router-dom") [.str "redux"]
        (.str "medium")).get "state_management" (.list [])
          = .list [.str "redux"] := by rfl
    have g4 : (mkReactAnalysis 20 (.str "react-router-dom") [.str "redux"]
        (.str "medium")).get "migration_complexity" (.str "medium")
          = .str "medium" := by rfl
    have hm : reactComplexityMultiplier (.str "medium") = 3/2 := by rfl
    have hb : (("react-router-dom" == "none") : Bool) = false := by decide
    simp only [estimate_migration_effort, g1, g2, g3, g4, hm, pyAsInt, pyLen, pyNeStr,
      pyTrunc, List.length, hb]
    norm_num [Int.floor_eq_iff, min_def]
  · intro cc rl sm cx hcx
    have g1 : (mkReactAnalysis cc (.str rl) sm (.str cx)).get
        "components_count" (.int 0) = .int cc := by rfl
    have g2 : (mkReactAnalysis cc (.str rl) sm (.str cx)).get
        "routing_library" .none = .str rl := by rfl
    have g3 : (mkReactAnalysis cc (.str rl) sm (.str cx)).get
        "state_management" (.list []) = .list sm := by rfl
    have g4 : (mkReactAnalysis cc (.str rl) sm (.str cx)).get
        "migration_complexity" (.str "medium") = .str cx := by rfl
    have key : reactComplexityMultiplier (.str cx) = specReactMultiplier cx := by
      rcases hcx with rfl | rfl | rfl <;> rfl
    simp only [estimate_migration_effort, g1, g2, g3, g4, key, pyAsInt, pyLen, pyNeStr,
      specReactHours]
    by_cases hrl : rl = "none"
    · simp only [hrl, beq_self_eq_true, Bool.not_true, Bool.false_eq_true, if_false,
        eq_self_iff_true, if_true]
      exact ⟨congrArg pyTrunc (by ring), congrArg pyTrunc (by ring)⟩
    · have hb : ((rl == "none") : Bool) = false := by
        simpa [beq_iff_eq] using hrl
      simp only [hb, Bool.not_false, if_true, if_neg hrl]
      exact ⟨congrArg pyTrunc (by ring), congrArg pyTrunc (by ring)⟩

/-- Witness for C8's general conjunct at the claim's own input. -/
theorem C8_react_effort_estimator_witness :
    (estimate_migration_effort (mkReactAnalysis 20 (.str "react-router-dom")
        [.str "redux"] (.str "medium"))).estimated_hours
      = CALobby.pyTrunc (specReactHours 20 "react-router-dom" 1 "medium") ∧
    CALobby.pyTrunc (specReactHours 20 "react-router-dom" 1 "medium") = 93 := by
  constructor
  · exact (C8_react_effort_estimator.2 20 "react-router-dom" [.str "redux"] "medium"
      (Or.inr (Or.inl rfl))).1
  · have hm : specReactMultiplier "medium" = 3/2 := by rfl
    have hne : ¬("react-router-dom" = "none") := by decide
    simp only [specReactHours, hm, if_neg hne, CALobby.pyTrunc]
    norm_num [Int.floor_eq_iff, min_def]

end ReactTheorems

section RegistryTheorems

open CALobby CALobby.AgentRegistry

theorem mem_insertByScoreDesc {x a : Recommendation} {l : List Recommendation} :
    a ∈ insertByScoreDesc x l ↔ a = x ∨ a ∈ l := by
  induction l with
  | nil => simp [insertByScoreDesc]
  | cons y ys ih =>
      simp only [insertByScoreDesc]
      split
      · simp [List.mem_cons]
      · simp only [List.mem_cons, ih]
        tauto

theorem mem_sortByScoreDesc {a : Recommendation} {l : List Recommendation} :
    a ∈ sortByScoreDesc l ↔ a ∈ l := by
  induction l with
  | nil => simp [sortByScoreDesc]
  | cons y ys ih => simp [sortByScoreDesc, mem_insertByScoreDesc, ih]

theorem recommend_agent_type_mem (task : String) (r : Recommendation)
    (hr : r ∈ recommend_agent_for_task task) :
    r.agent_type ∈ agent_keywords.map Prod.fst ∧
      r.agent_type ∈ registeredAgentTypes := by
  simp only [recommend_agent_for_task] at hr
  rw [mem_sortByScoreDesc] at hr
  obtain ⟨p, hp, hfp⟩ := List.mem_filterMap.mp hr
  by_cases h1 : ((p.2.filter (fun kw => pyInStr kw (pyLower task))).length > 0)
  · rw [if_pos h1] at hfp
    by_cases h2 : registeredAgentTypes.contains p.1 = true
    · rw [if_pos h2] at hfp
      obtain rfl := Option.some_injective _ hfp
      exact ⟨List.mem_map_of_mem Prod.fst hp, List.elem_iff.mp h2⟩
    · rw [if_neg h2] at hfp
      exact absurd hfp (by simp)
  · rw [if_neg h1] at hfp
    exact absurd hfp (by simp)

/-- C9: no task's recommendation list carries an entry for the Flask API
migration specialist — neither under the keyword-table key
`flask-nextjs-api-migration` (which is not a registered agent type, so
its entries are dropped) nor under the registered type
`flask-nextjs-api-migration-specialist` (which is not a keyword-table
key) — and the best-agent dispatcher never executes it; yet the Flask
keyword row scores positively on a Flask task. -/
theorem C9_flask_agent_unreachable :
    (∀ task : String,
      (((recommend_agent_for_task task).map Recommendation.agent_type).contains
          "flask-nextjs-api-migration") = false ∧
      (((recommend_agent_for_task task).map Recommendation.agent_type).contains
          "flask-nextjs-api-migration-specialist") = false ∧
      ((executedAgentType task == some "flask-nextjs-api-migration-specialist")
          = false)) ∧
    registeredAgentTypes.contains "flask-nextjs-api-migration" = false ∧
    (["flask", "python", "api migration", "backend"].filter
        (fun kw => pyInStr kw (pyLower "Migrate the Flask Python backend"))).length
      = 3 ∧
    (recommend_agent_for_task "Migrate the Flask Python backend").isEmpty = false := by
  refine ⟨fun task => ⟨?_, ?_, ?_⟩, by decide, by decide, by decide⟩
  · cases h : (((recommend_agent_for_task task).map Recommendation.agent_type).contains
        "flask-nextjs-api-migration") with
    | false => rfl
    | true =>
        obtain ⟨r, hr, hra⟩ := List.mem_map.mp (List.elem_iff.mp h)
        have := (recommend_agent_type_mem task r hr).2
        rw [hra] at this
        exact absurd this (by decide)
  · cases h : (((recommend_agent_for_task task).map Recommendation.agent_type).contains
        "flask-nextjs-api-migration-specialist") with
    | false => rfl
    | true =>
        obtain ⟨r, hr, hra⟩ := List.mem_map.mp (List.elem_iff.mp h)
        have := (recommend_agent_type_mem task r hr).1
        rw [hra] at this
        exact absurd this (by decide)
  · cases hrec : recommend_agent_for_task task with
    | nil => simp [executedAgentType, hrec]
    | cons r rest =>
        have hmem : r ∈ recommend_agent_for_task task := by
          rw [hrec]; exact List.mem_cons_self r rest
        have hkeys := (recommend_agent_type_mem task r hmem).1
        have hne : r.agent_type ≠ "flask-nextjs-api-migration-specialist" := by
          intro he
          rw [he] at hkeys
          exact absurd hkeys (by decide)
        simp [executedAgentType, hrec, hne]

end RegistryTheorems

section SearchTheorems

open CALobby CALobby.SearchAPI

/-- C3 (counterexample): the `/entities` route with the warehouse client
absent answers 503 with `success: false` and no mock marker — not the
mock-success envelope the claim asserts for all three routes. -/
theorem C3_entities_no_client_counterexample :
    (search_entities false (.rows []) [] ⟨1, 25⟩).status = 503 ∧
    (search_entities false (.rows []) [] ⟨1, 25⟩).success = false ∧
    (search_entities false (.rows []) [] ⟨1, 25⟩).mock = false ∧
    (search_entities false (.rows []) [] ⟨1, 25⟩).message
      = some "Database connection not available" := by
  exact ⟨rfl, rfl, rfl, rfl⟩

/-- C3 (amended): `/financial` and `/filings` answer the mock-success
envelope both when the warehouse client is absent and when the query
fails, and `/entities` answers it when the query fails — but `/entities`
with the client absent answers a 503 error.  The mock response carries
status 200, `success: true`, a top-level `mock: true`, a fixed total
count of 1000, one record per page-size slot, record `i` being the
synthetic filing with `base_id = (page-1)·pageSize + i + 1`, whose id is
`"10" ++ (100000 + base_id)` and whose amounts scale linearly in
`base_id`. -/
theorem C3_mock_fallback :
    (∀ (params : PyDict) (pg : Pagination) (outcome : QueryResult) (m : String),
      search_financial false outcome params pg
          = get_mock_search_results "financial" params (validatePagination pg) ∧
      search_filings false outcome params pg
          = get_mock_search_results "filings" params (validatePagination pg) ∧
      search_entities true (.failure m) params pg
          = get_mock_search_results "entities" params (validatePagination pg) ∧
      search_financial true (.failure m) params pg
          = get_mock_search_results "financial" params (validatePagination pg) ∧
      search_filings true (.failure m) params pg
          = get_mock_search_results "filings" params (validatePagination pg) ∧
      (search_entities false outcome params pg).status = 503 ∧
      (search_entities false outcome params pg).success = false ∧
      (search_entities false outcome params pg).mock = false) ∧
    (∀ (st : String) (params : PyDict) (pg : Pagination),
      (get_mock_search_results st params pg).status = 200 ∧
      (get_mock_search_results st params pg).success = true ∧
      (get_mock_search_results st params pg).mock = true ∧
      ∃ env, (get_mock_search_results st params pg).body = some env ∧
        env.pagination.totalCount = 1000 ∧
        env.data.length = pg.pageSize.toNat ∧
        ∀ (i : Nat) (hi : i < env.data.length),
          env.data.get ⟨i, hi⟩ = mockFiling ((pg.page - 1) * pg.pageSize + (i : Int) + 1)) ∧
    (∀ n : Int,
      (mockFiling n).filing_id = "10" ++ toString (100000 + n) ∧
      (mockFiling n).total_amount = 10000 + (n : ℚ) * 1500 ∧
      (mockFiling n).fees_amount = 8000 + (n : ℚ) * 1000 ∧
      (mockFiling n).reimbursement_amount = 1000 + (n : ℚ) * 300 ∧
      (mockFiling n).advance_amount = 1000 + (n : ℚ) * 200) := by
  refine ⟨fun params pg outcome m => ⟨rfl, rfl, rfl, rfl, rfl, rfl, rfl, rfl⟩,
    fun st params pg => ⟨rfl, rfl, rfl, ?_⟩,
    fun n => ⟨rfl, rfl, rfl, rfl, rfl⟩⟩
  refine ⟨_, rfl, rfl, ?_, ?_⟩
  · simp only [get_mock_search_results, List.length_map, List.length_range]
  · intro i hi
    simp only [get_mock_search_results, List.get_eq_getElem, List.getElem_map,
      List.getElem_range]

/-- Witness for C3's envelope conjunct at a concrete page: row 2 of
mock page 1 at page size 25 is the synthetic filing with id 10100003. -/
theorem C3_mock_fallback_witness :
    ∃ env, (get_mock_search_results "entities" [] ⟨1, 25⟩).body = some env ∧
      ∃ hlen : 2 < env.data.length,
        env.data.get ⟨2, hlen⟩ = mockFiling 3 ∧ (mockFiling 3).filing_id = "10100003" := by
  obtain ⟨env, henv, _, hlen, hget⟩ := (C3_mock_fallback.2.1 "entities" [] ⟨1, 25⟩).2.2.2
  refine ⟨env, henv, by rw [hlen]; decide, ?_, by decide⟩
  have h := hget 2 (by rw [hlen]; decide)
  simpa using h

end SearchTheorems

section AuthTheorems

open CALobby CALobby.AuthAPI

theorem get_user_by_email_nonempty_pw {t : UserTable}
    (ht : ∀ p ∈ t, p.2.password_hash ≠ "") {e : String} {u : User}
    (h : get_user_by_email t e = some u) : u.password_hash ≠ "" := by
  induction t with
  | nil => simp [get_user_by_email] at h
  | cons p ps ih =>
      rw [get_user_by_email, List.find?] at h
      cases hpe : (p.1 == e) with
      | true =>
          rw [hpe] at h
          have hpu : p.2 = u := by simpa using h
          exact hpu ▸ ht p (List.mem_cons_self p ps)
      | false =>
          rw [hpe] at h
          exact ih (fun q hq => ht q (List.mem_cons_of_mem p hq)) h

theorem mock_lookup_empty : get_user_by_email MOCK_USERS "" = Option.none := by rfl

/-- C10: on the `MOCK_USERS` table, the login route leaves the table
unchanged on every rejection and mutates it exactly when the claim's four
conditions hold (user exists at the normalised email, password check
passes, account active, requested role equals stored role — missing-body
and missing-credential rejections cannot satisfy them on this table); on
success the table becomes the `update_last_login` result and the
`update_last_login` event strictly precedes the token issuance, with the
route's `success` flag agreeing with the four conditions. -/
theorem C10_login_mutation_discipline :
    ∀ (body : Option LoginRequest) (now : Nat),
      ((login MOCK_USERS body now).2.1
          = if claimLoginCond body then
              update_last_login MOCK_USERS (reqEmail body) now
            else MOCK_USERS) ∧
      ((login MOCK_USERS body now).1.success = claimLoginCond body) ∧
      ((login MOCK_USERS body now).2.2
          = if claimLoginCond body then
              [LoginEvent.updateLastLogin (reqEmail body), LoginEvent.issueToken]
            else []) := by
  intro body now
  cases body with
  | none => simp [login, claimLoginCond, reqEmail]
  | some b =>
      cases hcred : (((pyLower b.email).trim == "") || (b.password == "")) with
      | true =>
          have hcc : claimLoginCond (some b) = false := by
            cases hor : ((pyLower b.email).trim == "") with
            | true =>
                have he : (pyLower b.email).trim = "" := eq_of_beq hor
                simp [claimLoginCond, he, mock_lookup_empty]
            | false =>
                have hpw : (b.password == "") = true := by
                  cases hp : (b.password == "") with
                  | true => rfl
                  | false => rw [hor, hp] at hcred; exact absurd hcred (by decide)
                have hpw' : b.password = "" := eq_of_beq hpw
                cases hu : get_user_by_email MOCK_USERS ((pyLower b.email).trim) with
                | none => simp [claimLoginCond, hu]
                | some u =>
                    have hne : u.password_hash ≠ "" :=
                      get_user_by_email_nonempty_pw (by decide) hu
                    have hchk : check_password_hash u.password_hash b.password = false := by
                      simp [check_password_hash, hpw', beq_iff_eq]
                      exact hne
                    simp [claimLoginCond, hu, hchk]
          simp [login, hcred, hcc]
      | false =>
          cases hu : get_user_by_email MOCK_USERS ((pyLower b.email).trim) with
          | none => simp [login, hcred, hu, claimLoginCond]
          | some u =>
              cases hpw : check_password_hash u.password_hash b.password with
              | false => simp [login, hcred, hu, hpw, claimLoginCond]
              | true =>
                  cases hact : u.is_active with
                  | false => simp [login, hcred, hu, hpw, hact, claimLoginCond]
                  | true =>
                      cases hrole : (u.role == b.role.getD "PUBLIC") with
                      | false =>
                          simp [login, hcred, hu, hpw, hact, hrole, claimLoginCond, bne]
                      | true =>
                          simp [login, hcred, hu, hpw, hact, hrole, claimLoginCond,
                            reqEmail, bne]

end AuthTheorems
